import Mathlib

/-!
Shallow embedding of the heartbeat-obstacle-detector supervision core:
`src/config.py`, `src/monitor.py` (class `HeartbeatMonitor`) and
`src/process_manager.py` (class `ProcessManager`).

Modelling conventions:
* Wall-clock instants (`datetime.now()` and `time.time()` values) are
  rationals measured in seconds; `timedelta.total_seconds()` between two
  instants is their difference.
* A `subprocess.Popen` handle is a `Proc`: its `running` flag is the
  observable `poll() is None`, and three behaviour flags describe how the
  underlying OS process reacts to the termination sequence, since that
  reaction is decided by the OS/process, not by this code:
  `exitsWithinGrace` (the process exits during `wait(timeout=5)` after
  `terminate()`), `vanishesBeforeKill` (the process disappears between the
  `TimeoutExpired` and the `os.kill` call, making `os.kill` raise an
  OS-level error), and `diesOnForcedSignal` (the process honours the second
  SIGTERM sent by `os.kill`; SIGTERM is catchable, so a process may ignore
  it).
* Fallible Python methods return `Except Err`; a raised exception that the
  source does not catch is an `Except.error`.
* Side effects on the OS are recorded as an explicit `Action` trace
  (signals sent, waits performed, processes spawned).
* Python attribute dictionaries matter here (the source reads attributes
  that were never written), so `MonState` carries the list of instance
  attribute names actually present, maintained exactly as `__init__` and
  later attribute assignments create them; `hasattr` consults that list.
-/

namespace HeartbeatSys

/-- From `src/config.py`: `HEARTBEAT_INTERVAL = int(os.getenv("HEARTBEAT_INTERVAL", "50"))`, default value. -/
def HEARTBEAT_INTERVAL : Int := 50

/-- From `src/config.py`: `TIMEOUT_THRESHOLD = int(os.getenv("TIMEOUT_THRESHOLD", "500"))`, default value (milliseconds). -/
def TIMEOUT_THRESHOLD : Int := 500

/-- From `src/config.py`: `HEARTBEAT_PORT`, default value. -/
def HEARTBEAT_PORT : Nat := 9999

/-- From `src/config.py`: `DEFAULT_DURATION = int(os.getenv("DEFAULT_DURATION", "60"))`, default value (seconds). -/
def DEFAULT_DURATION : Int := 60

/-- Python exceptions that the embedded code can raise. -/
inductive Err where
  | valueError (msg : String)
  | osError (msg : String)
  | typeError
deriving Repr, DecidableEq

/-- OS-visible side effects of the process-management code, in order. -/
inductive Action where
  /-- `proc.terminate()` — graceful termination signal. -/
  | term (pid : Nat)
  /-- `proc.wait(timeout=t)` — bounded wait for process exit. -/
  | wait (pid : Nat) (timeout : Nat)
  /-- `os.kill(proc.pid, signal.SIGTERM)` — the forced-kill step. -/
  | osKill (pid : Nat)
  /-- `subprocess.Popen(cmd, ...)` — a process launch. -/
  | spawn (pid : Nat)
deriving Repr, DecidableEq

/-- A `subprocess.Popen` handle together with the behaviour of the
underlying OS process (see the module comment). `running` is the state
observable via `poll() is None`. -/
structure Proc where
  pid : Nat
  running : Bool
  exitsWithinGrace : Bool
  vanishesBeforeKill : Bool
  diesOnForcedSignal : Bool
deriving Repr, DecidableEq

/-- State of a `HeartbeatMonitor` instance (`src/monitor.py`).
`attrs` is the list of Python instance attribute names present on the
object. `processManagerSet` is the truthiness of the `_process_manager`
attribute (the monitor only ever tests it for truthiness and then calls
through to the one manager, which the embedding passes explicitly).
`socketOpen` tracks whether `_heartbeat_socket` has been closed. -/
structure MonState where
  attrs : List String
  timeout_threshold : Int
  last_heartbeat : Option ℚ
  socketOpen : Bool
  processManagerSet : Bool
  duration : Int
  start_time : Option ℚ
deriving Repr, DecidableEq

/-- State of a `ProcessManager` instance (`src/process_manager.py`). -/
structure PMState where
  worker_cmd : Option (List String)
  worker_process : Option Proc
  monitor : Option MonState
  duration : Int
deriving Repr, DecidableEq

/-- Python `hasattr(obj, name)` against the monitor's attribute dictionary. -/
def hasattrMon (m : MonState) (name : String) : Bool :=
  m.attrs.contains name

/-- Python truthiness of `self.worker_cmd` (`None` and `[]` are falsy). -/
def pyTruthyCmd : Option (List String) → Bool
  | none => false
  | some l => !l.isEmpty

namespace HeartbeatMonitor

/-- `HeartbeatMonitor.__init__` (`src/monitor.py` lines 46-62): sets
`_timeout_threshold = TIMEOUT_THRESHOLD`, `_last_heartbeat = None`, opens
and binds `_heartbeat_socket`, sets `_process_manager = None`,
`_duration = duration or DEFAULT_DURATION` (Python `or`: the default is
used when `duration` is falsy, i.e. `0`), `_start_time = None`. The
attribute dictionary afterwards holds exactly the six underscore-prefixed
names assigned in `__init__`. -/
def monitorInit (duration : Int) : MonState :=
  { attrs := ["_timeout_threshold", "_last_heartbeat", "_heartbeat_socket",
              "_process_manager", "_duration", "_start_time"],
    timeout_threshold := TIMEOUT_THRESHOLD,
    last_heartbeat := none,
    socketOpen := true,
    processManagerSet := false,
    duration := if duration = 0 then DEFAULT_DURATION else duration,
    start_time := none }

/-- `HeartbeatMonitor.receive_heartbeat` (`src/monitor.py` lines 95-107):
one non-blocking `recvfrom`; on success (`packet = true`) records `now` as
`_last_heartbeat`; a `socket.error` (no datagram pending) is swallowed and
the state is unchanged. -/
def receive_heartbeat (m : MonState) (packet : Bool) (now : ℚ) : MonState :=
  if packet then { m with last_heartbeat := some now } else m

/-- `HeartbeatMonitor.check_timeout` (`src/monitor.py` lines 109-122):
`if self._last_heartbeat: delta = datetime.now() - self._last_heartbeat;
return (delta.total_seconds() * 1000) > self._timeout_threshold` and
`return False` otherwise. A `datetime` is always truthy, so the `if` tests
exactly for `None`. -/
def check_timeout (m : MonState) (now : ℚ) : Bool :=
  match m.last_heartbeat with
  | none => false
  | some t => decide ((now - t) * 1000 > (m.timeout_threshold : ℚ))

end HeartbeatMonitor

namespace ProcessManager

/-- `ProcessManager.__init__` (`src/process_manager.py` lines 35-47). -/
def pmInit (duration : Int) : PMState :=
  { worker_cmd := none, worker_process := none, monitor := none,
    duration := duration }

/-- `ProcessManager.start_process` (`src/process_manager.py` lines 49-69):
stores `cmd` as `worker_cmd`, launches the command (`fresh` is the handle
`subprocess.Popen` produces), stores and returns the handle. -/
def start_process (st : PMState) (cmd : List String) (fresh : Proc) :
    PMState × Proc × List Action :=
  ({ st with worker_cmd := some cmd, worker_process := some fresh },
   fresh, [.spawn fresh.pid])

/-- `ProcessManager.terminate_process` (`src/process_manager.py` lines
97-113). `if proc.poll() is None:` guards everything; then
`proc.terminate()` and `proc.wait(timeout=5)` inside a `try` whose only
handler catches `subprocess.TimeoutExpired` and runs
`os.kill(proc.pid, signal.SIGTERM)`. The `os.kill` call itself is NOT
inside any handler, so an OS-level error it raises (process already gone)
propagates to the caller. After a successful `os.kill` the function
returns without waiting, so whether the process is still alive at return
depends on whether it honours the second SIGTERM
(`diesOnForcedSignal`). -/
def terminate_process (proc : Proc) : Except Err (Proc × List Action) :=
  if proc.running then
    if proc.exitsWithinGrace then
      .ok ({ proc with running := false }, [.term proc.pid, .wait proc.pid 5])
    else
      if proc.vanishesBeforeKill then
        .error (.osError "No such process")
      else
        .ok ({ proc with running := !proc.diesOnForcedSignal },
             [.term proc.pid, .wait proc.pid 5, .osKill proc.pid])
  else
    .ok (proc, [])

/-- `ProcessManager.is_process_running` (`src/process_manager.py` lines
115-127): `if not self.worker_process: return False;
return self.worker_process.poll() is None`. -/
def is_process_running (st : PMState) : Bool :=
  match st.worker_process with
  | none => false
  | some p => p.running

/-- Result of `ProcessManager.restart_process`: the new manager state, the
final state of the displaced previous handle (still a child of this
supervisor even though no longer referenced), and the action trace. -/
structure RestartOut where
  state : PMState
  displaced : Option Proc
  acts : List Action
deriving Repr, DecidableEq

/-- `ProcessManager.restart_process` (`src/process_manager.py` lines
70-95): `if not self.worker_cmd: raise ValueError(...)`; then
`if self.worker_process and self.is_process_running():
self.terminate_process(self.worker_process)` (whose exceptions propagate);
then `subprocess.Popen(self.worker_cmd, ...)` (handle `fresh`) is stored
and returned. -/
def restart_process (st : PMState) (fresh : Proc) : Except Err RestartOut :=
  if !pyTruthyCmd st.worker_cmd then
    .error (.valueError "No command stored. Call start_process() first.")
  else
    match st.worker_process with
    | some p =>
      if p.running then
        match terminate_process p with
        | .error e => .error e
        | .ok (p1, acts) =>
          .ok ⟨{ st with worker_process := some fresh }, some p1,
               acts ++ [.spawn fresh.pid]⟩
      else
        .ok ⟨{ st with worker_process := some fresh }, some p,
             [.spawn fresh.pid]⟩
    | none =>
      .ok ⟨{ st with worker_process := some fresh }, none,
           [.spawn fresh.pid]⟩

/-- Number of OS processes spawned by the supervisor that are alive at the
moment `restart_process` returns: the displaced previous worker (if any)
plus the currently tracked one. -/
def aliveAfterRestart (r : RestartOut) : Nat :=
  (match r.displaced with
   | some p => if p.running then 1 else 0
   | none => 0) +
  (match r.state.worker_process with
   | some p => if p.running then 1 else 0
   | none => 0)

/-- The monitor-socket step of `ProcessManager.shutdown_system`
(`src/process_manager.py` lines 163-165):
`if self.monitor and hasattr(self.monitor, "heartbeat_socket"):
self.monitor.heartbeat_socket.close()`. Factored out so the shutdown
definition stays readable; note the attribute name it probes has no
leading underscore. -/
def closeMonitor (st : PMState) : PMState :=
  match st.monitor with
  | some m =>
    if hasattrMon m "heartbeat_socket" then
      { st with monitor := some { m with socketOpen := false } }
    else st
  | none => st

/-- `ProcessManager.shutdown_system` (`src/process_manager.py` lines
153-169): `if self.worker_process and self.is_process_running():
self.terminate_process(self.worker_process)` (exceptions propagate), then
the monitor-socket step (`closeMonitor`). -/
def shutdown_system (st : PMState) : Except Err (PMState × List Action) :=
  match st.worker_process with
  | some p =>
    if p.running then
      match terminate_process p with
      | .error e => .error e
      | .ok (p1, acts) =>
        .ok (closeMonitor { st with worker_process := some p1 }, acts)
    else
      .ok (closeMonitor st, [])
  | none =>
    .ok (closeMonitor st, [])

end ProcessManager

namespace HeartbeatMonitor

/-- `HeartbeatMonitor.restart_process` (`src/monitor.py` lines 124-137):
`if self._process_manager:` delegates to the manager's `restart_process`
(exceptions propagate) and resets `_last_heartbeat` to `datetime.now()`;
with no manager it only logs an error (not fatal). -/
def restart_process (pm : PMState) (m : MonState) (fresh : Proc) (now : ℚ) :
    Except Err (PMState × MonState × List Action) :=
  if m.processManagerSet then
    match ProcessManager.restart_process pm fresh with
    | .error e => .error e
    | .ok r => .ok (r.state, { m with last_heartbeat := some now }, r.acts)
  else
    .ok (pm, m, [])

/-- Exogenous inputs of one iteration of the `while True` loop in
`HeartbeatMonitor.start_monitoring` (`src/monitor.py` lines 83-93):
`tTime` is the `time.time()` sample of the duration check, `packet`
whether a datagram is pending in `receive_heartbeat`, `tRecv` the
`datetime.now()` sample taken there, `tCheck` the `datetime.now()` sample
inside `check_timeout`, and `tRestart` the `datetime.now()` sample used to
reset the timestamp after a restart. -/
structure TickInput where
  tTime : ℚ
  packet : Bool
  tRecv : ℚ
  tCheck : ℚ
  tRestart : ℚ
deriving Repr, DecidableEq

/-- One iteration of the monitoring loop (`src/monitor.py` lines 83-93),
operating on the monitor state `m` and the manager `pm` that
`_process_manager` references. Order as in the source: first
`time.time() - self._start_time > self._duration` (on expiry:
`shutdown_system` and `break`), then `receive_heartbeat`, then
`check_timeout`, and on timeout the monitor's `restart_process`. The
returned `Bool` is whether the loop continues. A `None` `_start_time`
would make the subtraction raise `TypeError` (never happens inside the
loop, which runs only after `_start_time` is set). -/
def monitorTick (pm : PMState) (m : MonState) (inp : TickInput)
    (fresh : Proc) :
    Except Err (PMState × MonState × Bool × List Action) :=
  match m.start_time with
  | none => .error .typeError
  | some s =>
    if inp.tTime - s > (m.duration : ℚ) then
      match ProcessManager.shutdown_system pm with
      | .error e => .error e
      | .ok (pm1, acts) => .ok (pm1, m, false, acts)
    else
      let m1 := receive_heartbeat m inp.packet inp.tRecv
      if check_timeout m1 inp.tCheck then
        match restart_process pm m1 fresh inp.tRestart with
        | .error e => .error e
        | .ok (pm1, m2, acts) => .ok (pm1, m2, true, acts)
      else
        .ok (pm, m1, true, [])

/-- Entry of `HeartbeatMonitor.start_monitoring` (`src/monitor.py` lines
64-81), up to the first loop iteration: `if not self._process_manager:
raise ValueError("ProcessManager not set. Must be configured by
orchestrator.")`; then `self._process_manager.start_process(cmd)`,
`self._last_heartbeat = datetime.now()` (sample `tNow`) and
`self._start_time = time.time()` (sample `tTime`). The subsequent loop
iterations are `monitorTick`. -/
def start_monitoring_entry (pm : PMState) (m : MonState) (cmd : List String)
    (fresh : Proc) (tNow tTime : ℚ) :
    Except Err (PMState × MonState × List Action) :=
  if !m.processManagerSet then
    .error (.valueError "ProcessManager not set. Must be configured by orchestrator.")
  else
    let r := ProcessManager.start_process pm cmd fresh
    .ok (r.1, { m with last_heartbeat := some tNow, start_time := some tTime },
         r.2.2)

end HeartbeatMonitor

namespace ProcessManager

/-- `ProcessManager.start_system` (`src/process_manager.py` lines
129-151): creates `HeartbeatMonitor(duration=self.duration)`, then runs
`self.monitor.process_manager = self`. That assignment creates a new
instance attribute literally named `process_manager`; the attribute the
monitor later reads, `_process_manager`, is untouched and still `None`,
so `processManagerSet` stays `false`. Then it calls
`self.monitor.start_monitoring(detector_cmd)`. -/
def start_system (st : PMState) (cmd : List String) (fresh : Proc)
    (tNow tTime : ℚ) :
    Except Err (PMState × MonState × List Action) :=
  let m0 := HeartbeatMonitor.monitorInit st.duration
  let m1 := { m0 with attrs := m0.attrs ++ ["process_manager"] }
  HeartbeatMonitor.start_monitoring_entry { st with monitor := some m1 }
    m1 cmd fresh tNow tTime

end ProcessManager

/-! Concrete process handles and states used by witnesses and
counterexamples. -/

/-- A running worker that exits within the 5-second grace period of
`terminate()`. -/
def gracefulProc : Proc := ⟨1, true, true, false, true⟩

/-- A running worker that neither exits within the grace period nor
honours the forced SIGTERM (SIGTERM is catchable, so this behaviour is
available to any worker), and is still present when `os.kill` runs. -/
def stubbornProc : Proc := ⟨1, true, false, false, false⟩

/-- A running worker that does not exit within the grace period and has
already disappeared by the time `os.kill` runs, making `os.kill` raise. -/
def vanishingProc : Proc := ⟨1, true, false, true, true⟩

/-- A worker handle whose process has already exited (`poll()` not `None`). -/
def stoppedProc : Proc := ⟨3, false, true, false, true⟩

/-- A freshly launched worker handle as produced by `subprocess.Popen`. -/
def freshProc : Proc := ⟨2, true, true, false, true⟩

/-- A manager holding a running graceful worker and a real
`HeartbeatMonitor` instance, as at shutdown time. -/
def shutdownState : PMState :=
  ⟨some ["python", "src/detector.py"], some gracefulProc,
   some (HeartbeatMonitor.monitorInit 60), 60⟩

/-- A manager holding a stored command and a running stubborn worker. -/
def restartState : PMState :=
  ⟨some ["python", "src/detector.py"], some stubbornProc, none, 60⟩

/-- A manager holding a stored command and a running graceful worker. -/
def graceState : PMState := ⟨some ["w"], some gracefulProc, none, 60⟩

/-- A manager whose worker has already stopped. -/
def stoppedState : PMState := ⟨some ["w"], some stoppedProc, none, 60⟩

/-! Helper lemmas about the monitor-socket step of shutdown, shared by the
shutdown theorems. -/

lemma closeMonitor_worker_process (st : PMState) :
    (ProcessManager.closeMonitor st).worker_process = st.worker_process := by
  obtain ⟨wc, wp, mo, d⟩ := st
  cases mo with
  | none => rfl
  | some m =>
    by_cases h : hasattrMon m "heartbeat_socket" = true <;>
      simp [ProcessManager.closeMonitor, h]

lemma closeMonitor_idem (st : PMState) :
    ProcessManager.closeMonitor (ProcessManager.closeMonitor st) =
      ProcessManager.closeMonitor st := by
  obtain ⟨wc, wp, mo, d⟩ := st
  cases mo with
  | none => rfl
  | some m =>
    by_cases h : hasattrMon m "heartbeat_socket" = true
    · have h2 : hasattrMon { m with socketOpen := false } "heartbeat_socket"
          = true := h
      simp [ProcessManager.closeMonitor, h, h2]
    · simp [ProcessManager.closeMonitor, h]

lemma is_process_running_closeMonitor (st : PMState) :
    ProcessManager.is_process_running (ProcessManager.closeMonitor st) =
      ProcessManager.is_process_running st := by
  unfold ProcessManager.is_process_running
  rw [closeMonitor_worker_process]

/-- Claim C1: `start_system(cmd)` is claimed to wire the monitor to the
supervisor so that `start_monitoring(cmd)` passes its precondition and
launches the worker. In the code, the assignment
`self.monitor.process_manager = self` creates an attribute named
`process_manager` while `start_monitoring` tests `self._process_manager`,
which is still `None`; so for every command, every handle and every pair
of clock samples, `start_system` on a fresh manager fails with the
invalid-state `ValueError` instead of launching the worker. -/
theorem start_system_raises_invalid_state :
    ∀ (d : Int) (cmd : List String) (fresh : Proc) (tNow tTime : ℚ),
      ProcessManager.start_system (ProcessManager.pmInit d) cmd fresh tNow tTime =
        .error (.valueError
          "ProcessManager not set. Must be configured by orchestrator.") := by
  intro d cmd fresh tNow tTime
  rfl

/-- Claim C2: `shutdown_system()` is claimed to terminate a still-running
worker and close the monitor's heartbeat socket. On a manager holding a
running worker and a real `HeartbeatMonitor`, the worker is indeed
terminated, but the socket stays open: the guard
`hasattr(self.monitor, "heartbeat_socket")` is false because the
monitor's attribute is named `_heartbeat_socket`, so `close()` is never
called. -/
theorem shutdown_system_never_closes_socket :
    Except.map
        (fun r => (ProcessManager.is_process_running r.1,
                   r.1.monitor.map MonState.socketOpen))
        (ProcessManager.shutdown_system shutdownState) =
      .ok (false, some true) := by
  rfl

/-- Claim C3: `terminate_process` is claimed never to raise: an OS-level
error from the forced-kill step should be swallowed. In the code the
`os.kill(proc.pid, signal.SIGTERM)` call sits outside any handler (the
`try` only catches `subprocess.TimeoutExpired` from the wait), so when the
process has already exited between the timeout and the kill, the OS error
propagates to the caller. -/
theorem terminate_process_raises_after_grace :
    ProcessManager.terminate_process vanishingProc =
      .error (.osError "No such process") := by
  rfl

/-- Claim C4: on a running process that does not exit within the 5-unit
grace period, `terminate_process` is claimed to force-kill exactly once
and then perform a second bounded wait (2 time units) to reap it. The
code's trace is `terminate()`, `wait(timeout=5)`, `os.kill(...)` — the
forced signal is indeed sent exactly once, but no wait of any timeout
follows it (in particular no `wait(timeout=2)`), and the function returns
immediately. -/
theorem terminate_process_no_second_wait :
    ProcessManager.terminate_process stubbornProc =
      .ok ({ stubbornProc with running := true },
           [.term 1, .wait 1 5, .osKill 1]) ∧
    [Action.term 1, Action.wait 1 5, Action.osKill 1].count (Action.osKill 1)
      = 1 ∧
    Action.wait 1 2 ∉ [Action.term 1, Action.wait 1 5, Action.osKill 1] := by
  refine ⟨rfl, rfl, ?_⟩
  decide

/-- Claim C7: on every supervisor state with no stored command,
`restart_process()` fails with the invalid-state `ValueError`; the error
return carries no new state and no spawn action, so nothing is launched
and the (immutable) input state is untouched. -/
theorem restart_without_start_invalid_state :
    ∀ (st : PMState) (fresh : Proc), st.worker_cmd = none →
      ProcessManager.restart_process st fresh =
        .error (.valueError "No command stored. Call start_process() first.") := by
  intro st fresh h
  simp [ProcessManager.restart_process, pyTruthyCmd, h]

/-- Witness for C7: the freshly initialized manager has no stored command
and `restart_process` on it fails with exactly the invalid-state error. -/
theorem restart_without_start_invalid_state_witness :
    ProcessManager.restart_process (ProcessManager.pmInit 60) freshProc =
      .error (.valueError "No command stored. Call start_process() first.") :=
  restart_without_start_invalid_state (ProcessManager.pmInit 60) freshProc rfl

/-- Counterexample to claim C5 as stated: a running worker that ignores
both SIGTERMs (the forced-kill step is `os.kill(pid, SIGTERM)`, a
catchable signal, and no wait follows it) is still alive when
`restart_process` returns alongside the freshly launched worker — two
worker processes spawned by the same supervisor are alive at that
moment, refuting "at most one worker process is alive ... concurrent
overlapping workers never exist". -/
theorem restart_overlapping_workers :
    Except.map ProcessManager.aliveAfterRestart
        (ProcessManager.restart_process restartState freshProc) =
      .ok 2 := by
  rfl

/-- Claim C5 (amended): at the moment `restart_process()` returns
successfully, the supervisor's current handle is the newly launched
worker; and provided any previously running worker exits within the
5-unit grace period of the termination signal, it is the only worker
alive under the supervisor's ownership. (A previous worker that ignores
the termination signals can still be alive at return, since the forced
step sends SIGTERM and does not wait.) -/
theorem restart_single_alive_of_grace :
    ∀ (st : PMState) (fresh : Proc) (r : ProcessManager.RestartOut),
      fresh.running = true →
      (∀ p, st.worker_process = some p → p.running = true →
        p.exitsWithinGrace = true) →
      ProcessManager.restart_process st fresh = .ok r →
      r.state.worker_process = some fresh ∧
        ProcessManager.aliveAfterRestart r = 1 := by
  intro st fresh r hfresh hgrace hr
  unfold ProcessManager.restart_process at hr
  by_cases hcmd : pyTruthyCmd st.worker_cmd = true
  · rw [hcmd] at hr
    simp only [Bool.not_true, Bool.false_eq_true, if_false] at hr
    cases hw : st.worker_process with
    | none =>
      rw [hw] at hr
      cases hr
      simp [ProcessManager.aliveAfterRestart, hfresh]
    | some p =>
      rw [hw] at hr
      dsimp only at hr
      by_cases hp : p.running = true
      · have hg : p.exitsWithinGrace = true := hgrace p hw hp
        rw [hp] at hr
        simp only [if_true] at hr
        unfold ProcessManager.terminate_process at hr
        rw [hp, hg] at hr
        simp only [if_true] at hr
        cases hr
        simp [ProcessManager.aliveAfterRestart, hfresh]
      · simp only [Bool.not_eq_true] at hp
        rw [hp] at hr
        simp only [Bool.false_eq_true, if_false] at hr
        cases hr
        simp [ProcessManager.aliveAfterRestart, hfresh, hp]
  · simp only [Bool.not_eq_true] at hcmd
    rw [hcmd] at hr
    simp at hr

/-- Witness for the amended C5: restarting over a running graceful worker
yields the fresh worker as the only alive one. -/
theorem restart_single_alive_of_grace_witness :
    (⟨⟨some ["w"], some freshProc, none, 60⟩,
      some ⟨1, false, true, false, true⟩,
      [Action.term 1, Action.wait 1 5, Action.spawn 2]⟩ :
        ProcessManager.RestartOut).state.worker_process = some freshProc ∧
      ProcessManager.aliveAfterRestart
        ⟨⟨some ["w"], some freshProc, none, 60⟩,
         some ⟨1, false, true, false, true⟩,
         [Action.term 1, Action.wait 1 5, Action.spawn 2]⟩ = 1 :=
  restart_single_alive_of_grace graceState freshProc _ rfl
    (by intro p hp _; injection hp with h; rw [← h]; rfl) rfl

/-- Claim C6: `check_timeout()` returns true iff a heartbeat has been
received at least once and the elapsed milliseconds since it strictly
exceed the threshold; an elapsed time exactly equal to the threshold
yields false, and with no heartbeat ever received it is false regardless
of the clock; the configured default threshold is 500 ms. -/
theorem check_timeout_strict_threshold :
    ∀ (m : MonState) (now : ℚ),
      (HeartbeatMonitor.check_timeout m now = true ↔
        ∃ t, m.last_heartbeat = some t ∧
          (now - t) * 1000 > (m.timeout_threshold : ℚ)) ∧
      (m.last_heartbeat = none →
        HeartbeatMonitor.check_timeout m now = false) ∧
      (∀ t, m.last_heartbeat = some t →
        (now - t) * 1000 = (m.timeout_threshold : ℚ) →
        HeartbeatMonitor.check_timeout m now = false) ∧
      (HeartbeatMonitor.monitorInit 60).timeout_threshold = 500 := by
  intro m now
  refine ⟨?_, ?_, ?_, rfl⟩
  · unfold HeartbeatMonitor.check_timeout
    cases h : m.last_heartbeat with
    | none => simp
    | some t => simp [h]
  · intro h
    simp [HeartbeatMonitor.check_timeout, h]
  · intro t ht heq
    simp [HeartbeatMonitor.check_timeout, ht, heq]

/-- Witness for C6 (boundary case): with the default 500 ms threshold and
a last heartbeat exactly 0.5 s old, `check_timeout` returns false. -/
theorem check_timeout_strict_threshold_witness :
    HeartbeatMonitor.check_timeout
      { HeartbeatMonitor.monitorInit 60 with last_heartbeat := some (1/2 : ℚ) }
      (1 : ℚ) = false :=
  (check_timeout_strict_threshold
      { HeartbeatMonitor.monitorInit 60 with last_heartbeat := some (1/2 : ℚ) }
      (1 : ℚ)).2.2.1 (1/2 : ℚ) rfl (by norm_num [HeartbeatMonitor.monitorInit,
        TIMEOUT_THRESHOLD])

/-- Claim C8: within one tick of the monitoring loop, the
session-duration check runs first — on expiry the tick runs
`shutdown_system` and stops the loop unconditionally, whatever the
heartbeat and timeout inputs are — and otherwise heartbeat reception runs
before timeout evaluation, so a heartbeat arriving in the tick (with the
two intra-tick clock samples at most the threshold apart, which the
100 ms tick guarantees against the 500 ms default) suppresses the restart
for that tick. -/
theorem tick_duration_first_heartbeat_suppresses_restart :
    ∀ (pm : PMState) (m : MonState) (inp : HeartbeatMonitor.TickInput)
      (fresh : Proc) (s : ℚ),
      m.start_time = some s →
      ((inp.tTime - s > (m.duration : ℚ) →
        HeartbeatMonitor.monitorTick pm m inp fresh =
          Except.map (fun r => (r.1, m, false, r.2))
            (ProcessManager.shutdown_system pm)) ∧
       (inp.tTime - s ≤ (m.duration : ℚ) → inp.packet = true →
        (inp.tCheck - inp.tRecv) * 1000 ≤ (m.timeout_threshold : ℚ) →
        HeartbeatMonitor.monitorTick pm m inp fresh =
          .ok (pm, { m with last_heartbeat := some inp.tRecv }, true, []))) := by
  intro pm m inp fresh s hs
  obtain ⟨attrs, thr, lh, so, pms, dur, stt⟩ := m
  dsimp only at hs ⊢
  subst hs
  constructor
  · intro hgt
    unfold HeartbeatMonitor.monitorTick
    dsimp only
    rw [if_pos hgt]
    cases ProcessManager.shutdown_system pm <;> rfl
  · intro hle hpk hsup
    unfold HeartbeatMonitor.monitorTick
    dsimp only
    rw [if_neg (not_lt.mpr hle)]
    have hm1 : HeartbeatMonitor.receive_heartbeat
        ⟨attrs, thr, lh, so, pms, dur, some s⟩ inp.packet inp.tRecv =
          ⟨attrs, thr, some inp.tRecv, so, pms, dur, some s⟩ := by
      simp [HeartbeatMonitor.receive_heartbeat, hpk]
    rw [hm1]
    have hto : HeartbeatMonitor.check_timeout
        ⟨attrs, thr, some inp.tRecv, so, pms, dur, some s⟩ inp.tCheck
          = false := by
      simp [HeartbeatMonitor.check_timeout]
      exact hsup
    rw [hto]
    rfl

/-- Witness for C8: on a concrete in-session tick (elapsed 1 s of a 60 s
session) in which a datagram is pending and the intra-tick clock samples
coincide, the tick records the heartbeat and performs no restart. -/
theorem tick_duration_first_heartbeat_suppresses_restart_witness :
    HeartbeatMonitor.monitorTick (ProcessManager.pmInit 60)
        ⟨[], 500, none, true, true, 60, some 0⟩ ⟨1, true, 2, 2, 2⟩ freshProc =
      .ok (ProcessManager.pmInit 60,
           { (⟨[], 500, none, true, true, 60, some 0⟩ : MonState) with
               last_heartbeat := some 2 },
           true, []) :=
  (tick_duration_first_heartbeat_suppresses_restart (ProcessManager.pmInit 60)
      ⟨[], 500, none, true, true, 60, some 0⟩ ⟨1, true, 2, 2, 2⟩ freshProc 0
      rfl).2 (by norm_num) rfl (by norm_num)

/-- Claim C9: once the worker is stopped or absent, `shutdown_system()` is
idempotent: a call whose result leaves no running worker can be followed
by a second call that succeeds, changes nothing, and performs no
termination attempt at all (empty action trace) — in particular no
duplicate termination of an already-stopped worker and no error. -/
theorem shutdown_system_second_call_noop :
    ∀ (st st1 : PMState) (a1 : List Action),
      ProcessManager.shutdown_system st = .ok (st1, a1) →
      ProcessManager.is_process_running st1 = false →
      ProcessManager.shutdown_system st1 = .ok (st1, []) := by
  intro st st1 a1 h1 h2
  have hclose : ∀ st2 : PMState, st1 = ProcessManager.closeMonitor st2 →
      ProcessManager.shutdown_system st1 = .ok (st1, []) := by
    intro st2 hst2
    unfold ProcessManager.shutdown_system
    cases hw : st1.worker_process with
    | none =>
      rw [hst2, closeMonitor_idem]
    | some p =>
      dsimp only
      have hp : p.running = false := by
        unfold ProcessManager.is_process_running at h2
        rw [hw] at h2
        exact h2
      rw [hp]
      simp only [Bool.false_eq_true, if_false]
      rw [hst2, closeMonitor_idem]
  unfold ProcessManager.shutdown_system at h1
  cases hw : st.worker_process with
  | none =>
    rw [hw] at h1
    dsimp only at h1
    cases h1
    exact hclose st rfl
  | some p =>
    rw [hw] at h1
    dsimp only at h1
    by_cases hp : p.running = true
    · rw [hp] at h1
      simp only [if_true] at h1
      cases hterm : ProcessManager.terminate_process p with
      | error e => rw [hterm] at h1; cases h1
      | ok pr =>
        rw [hterm] at h1
        obtain ⟨p1, acts⟩ := pr
        cases h1
        exact hclose _ rfl
    · simp only [Bool.not_eq_true] at hp
      rw [hp] at h1
      simp only [Bool.false_eq_true, if_false] at h1
      cases h1
      exact hclose st rfl

/-- Witness for C9: on a manager whose worker has already stopped, the
first shutdown succeeds with no actions and leaves the state unchanged,
and the theorem applied to it shows the repeated call is the same no-op. -/
theorem shutdown_system_second_call_noop_witness :
    ProcessManager.shutdown_system stoppedState = .ok (stoppedState, []) :=
  shutdown_system_second_call_noop stoppedState stoppedState [] rfl rfl

/-- Claim C10: constructing a `HeartbeatMonitor` with the falsy duration
`0` yields the default session duration `DEFAULT_DURATION` (60 seconds),
because `__init__` stores `duration or DEFAULT_DURATION`. -/
theorem monitor_falsy_duration_uses_default :
    (HeartbeatMonitor.monitorInit 0).duration = DEFAULT_DURATION ∧
      DEFAULT_DURATION = 60 :=
  ⟨rfl, rfl⟩

end HeartbeatSys
